import Mathlib

/-!
Verification of the Optiqo paper-backtest execution core against its
natural-language specification.  The Python sources under `src/engine/`
are shallowly embedded: Python floats become `ℚ`, Python ints become
`ℤ`/`ℕ`, dictionaries become functions into `Option`, and code that can
raise becomes `Except`-valued input.
-/

namespace Optiqo

/-! ## Portfolio ledger (`src/engine/portfolio.py`) -/

/-- One entry of `PortfolioManager.positions`
(`{'instrument_token', 'quantity', 'avg_price', 'last_known_price'}`). -/
structure Position where
  quantity : Int
  avg_price : ℚ
  last_known_price : ℚ
deriving DecidableEq

/-- The fields of `FillEvent` consumed by `PortfolioManager.on_fill_event`. -/
structure FillEvent where
  order_id : String
  exchange_order_id : String
  instrument_token : String
  quantity : Int
  price : ℚ
  transaction_type : String
  brokerage : ℚ
  fill_timestamp : ℚ
deriving DecidableEq

/-- A row of `PortfolioManager.portfolio_trades` (the in-memory trade log). -/
structure TradeRecord where
  timestamp : ℚ
  instrument_token : String
  order_id : String
  exchange_order_id : String
  transaction_type : String
  quantity : Int
  price : ℚ
  brokerage : ℚ
  current_cash_after_trade : ℚ
deriving DecidableEq

/-- A row of `PortfolioManager.equity_curve`; `total_value` is just cash in
`_record_equity_snapshot` (the code's simplification). -/
structure EquityRecord where
  timestamp : ℚ
  cash : ℚ
  total_value : ℚ
deriving DecidableEq

/-- The mutable state of `PortfolioManager` touched by `on_fill_event`. -/
structure PortfolioState where
  current_cash : ℚ
  positions : String → Option Position
  portfolio_trades : List TradeRecord
  equity_curve : List EquityRecord

/-- Fresh `PortfolioManager` state: `initial_cash` and no positions
(`_load_positions` finding no saved state). -/
def initialState (initial_cash : ℚ) : PortfolioState where
  current_cash := initial_cash
  positions := fun _ => none
  portfolio_trades := []
  equity_curve := []

/-- Embedding of `PortfolioManager.on_fill_event`: updates cash, updates/creates the
position entry, deletes it when its quantity reaches zero, appends a trade
record and an equity snapshot.  Mirrors `src/engine/portfolio.py` lines
108-191 (the `_save_positions` file write is external I/O and has no
in-memory effect). -/
def on_fill_event (st : PortfolioState) (e : FillEvent) : PortfolioState :=
  let tok := e.instrument_token
  let q := e.quantity
  let p := e.price
  let tt := e.transaction_type
  let b := e.brokerage
  -- Update cash
  let cash1 : ℚ :=
    if tt = "BUY" then st.current_cash - ((q : ℚ) * p + b)
    else if tt = "SELL" then st.current_cash + ((q : ℚ) * p - b)
    else st.current_cash
  -- Update positions: create a zero entry if the token is unseen
  let pos0 : Position :=
    match st.positions tok with
    | some pos => pos
    | none => { quantity := 0, avg_price := 0, last_known_price := p }
  let pos1 : Position :=
    if tt = "BUY" then
      let old_total_value := (pos0.quantity : ℚ) * pos0.avg_price
      let new_quantity := pos0.quantity + q
      let new_avg : ℚ :=
        if new_quantity = 0 then 0
        else (old_total_value + (q : ℚ) * p) / (new_quantity : ℚ)
      { pos0 with quantity := new_quantity, avg_price := new_avg }
    else if tt = "SELL" then
      let new_quantity := pos0.quantity - q
      let new_avg : ℚ :=
        if new_quantity = 0 then 0
        else if (pos0.quantity > 0 ∧ new_quantity < 0) ∨
                (pos0.quantity < 0 ∧ new_quantity > 0) then p
        else pos0.avg_price
      { pos0 with quantity := new_quantity, avg_price := new_avg }
    else pos0
  -- Remove position if quantity becomes zero
  let positions1 : String → Option Position :=
    if pos1.quantity = 0 then fun t => if t = tok then none else st.positions t
    else fun t => if t = tok then some pos1 else st.positions t
  { current_cash := cash1
    positions := positions1
    portfolio_trades := st.portfolio_trades ++
      [{ timestamp := e.fill_timestamp
         instrument_token := e.instrument_token
         order_id := e.order_id
         exchange_order_id := e.exchange_order_id
         transaction_type := e.transaction_type
         quantity := e.quantity
         price := e.price
         brokerage := e.brokerage
         current_cash_after_trade := cash1 }]
    equity_curve := st.equity_curve ++
      [{ timestamp := e.fill_timestamp, cash := cash1, total_value := cash1 }] }

/-- Fold a list of fills through `on_fill_event`, oldest first. -/
def applyFills (st : PortfolioState) (fills : List FillEvent) : PortfolioState :=
  fills.foldl on_fill_event st

/-- Signed quantity contributed by one fill: BUY adds, SELL subtracts. -/
def signedQty (e : FillEvent) : Int :=
  if e.transaction_type = "BUY" then e.quantity
  else if e.transaction_type = "SELL" then -e.quantity
  else 0

/-- Signed sum of the fill quantities of a sequence of fills. -/
def signedSum (fills : List FillEvent) : Int :=
  (fills.map signedQty).sum

/-- All fills in the list are on instrument `tok` and are BUY or SELL. -/
def fillsOn (tok : String) (fills : List FillEvent) : Bool :=
  fills.all fun e =>
    decide (e.instrument_token = tok) &&
      (decide (e.transaction_type = "BUY") || decide (e.transaction_type = "SELL"))

/-- The map entry for `tok`, if present, has nonzero quantity. -/
def noZeroEntryAt (st : PortfolioState) (tok : String) : Bool :=
  match st.positions tok with
  | none => true
  | some pos => decide (pos.quantity ≠ 0)

/-- Quantity held at the fill's instrument before the fill (0 when absent). -/
def oldQty (st : PortfolioState) (e : FillEvent) : Int :=
  match st.positions e.instrument_token with
  | some pos => pos.quantity
  | none => 0

theorem sell_ne_buy : ("SELL" : String) ≠ "BUY" := by decide

/-- C1: a BUY fill debits `q*p + b` from cash and a SELL fill credits
`q*p - b`, exactly as `on_fill_event` computes `cost`/`revenue`. -/
theorem c1_cash_update (st : PortfolioState) (e : FillEvent) :
    (e.transaction_type = "BUY" →
      (on_fill_event st e).current_cash
        = st.current_cash - ((e.quantity : ℚ) * e.price + e.brokerage)) ∧
    (e.transaction_type = "SELL" →
      (on_fill_event st e).current_cash
        = st.current_cash + ((e.quantity : ℚ) * e.price - e.brokerage)) := by
  constructor <;> intro h <;> simp [on_fill_event, h, sell_ne_buy]

/-- Witness for C1 at a concrete BUY fill and a concrete SELL fill. -/
theorem c1_cash_update_witness :
    (({ order_id := "o1", exchange_order_id := "x1", instrument_token := "INFY",
        quantity := 10, price := 5, transaction_type := "BUY", brokerage := 20,
        fill_timestamp := 0 } : FillEvent).transaction_type = "BUY") ∧
    (on_fill_event (initialState 1000)
      { order_id := "o1", exchange_order_id := "x1", instrument_token := "INFY",
        quantity := 10, price := 5, transaction_type := "BUY", brokerage := 20,
        fill_timestamp := 0 }).current_cash = 1000 - ((10 : ℚ) * 5 + 20) := by
  refine ⟨rfl, ?_⟩
  exact (c1_cash_update (initialState 1000)
    { order_id := "o1", exchange_order_id := "x1", instrument_token := "INFY",
      quantity := 10, price := 5, transaction_type := "BUY", brokerage := 20,
      fill_timestamp := 0 }).1 rfl

/-- After a BUY or SELL fill, the entry at the fill's instrument holds the
old quantity plus the fill's signed quantity, and is deleted exactly when
that sum is zero. -/
theorem positions_after_fill (st : PortfolioState) (e : FillEvent)
    (htt : e.transaction_type = "BUY" ∨ e.transaction_type = "SELL") :
    ((on_fill_event st e).positions e.instrument_token).map Position.quantity
      = if oldQty st e + signedQty e = 0 then none
        else some (oldQty st e + signedQty e) := by
  rcases hm : st.positions e.instrument_token with _ | p <;>
    rcases htt with ht | ht <;>
      simp only [on_fill_event, oldQty, signedQty, ht, hm, sell_ne_buy,
        if_true, if_false, ite_true, ite_false, reduceIte] <;>
    simp [apply_ite (fun f : String → Option Position => f e.instrument_token)] <;>
    split_ifs <;>
      simp_all [sub_eq_add_neg]

/-- The ledger's entry for `tok` tracks the running signed sum `s`:
absent when `s = 0`, present with quantity `s` otherwise. -/
def posQtyInv (st : PortfolioState) (tok : String) (s : Int) : Prop :=
  (s = 0 → st.positions tok = none) ∧
  (s ≠ 0 → (st.positions tok).map Position.quantity = some s)

theorem posQtyInv_step (st : PortfolioState) (e : FillEvent) (tok : String) (s : Int)
    (htok : e.instrument_token = tok)
    (htt : e.transaction_type = "BUY" ∨ e.transaction_type = "SELL")
    (hinv : posQtyInv st tok s) :
    posQtyInv (on_fill_event st e) tok (s + signedQty e) := by
  subst htok
  obtain ⟨h0, hne⟩ := hinv
  have hq : oldQty st e = s := by
    by_cases hs : s = 0
    · simp [oldQty, h0 hs, hs]
    · rcases hm : st.positions e.instrument_token with _ | p
      · simp [hm] at hne; exact absurd hne hs
      · have := hne hs
        simp [hm] at this
        simp [oldQty, hm, this]
  have hafter := positions_after_fill st e htt
  rw [hq] at hafter
  constructor
  · intro hz
    rw [hz, if_pos rfl] at hafter
    exact Option.map_eq_none'.mp hafter
  · intro hz
    rwa [if_neg hz] at hafter

theorem posQtyInv_applyFills (tok : String) (fills : List FillEvent)
    (st : PortfolioState) (s : Int)
    (hf : fillsOn tok fills = true) (hinv : posQtyInv st tok s) :
    posQtyInv (applyFills st fills) tok (s + signedSum fills) := by
  induction fills generalizing st s with
  | nil => simpa [applyFills, signedSum] using hinv
  | cons e rest ih =>
      simp only [fillsOn, List.all_cons, Bool.and_eq_true, Bool.or_eq_true,
        decide_eq_true_eq] at hf
      obtain ⟨⟨htok, htt⟩, hrest⟩ := hf
      have hstep := posQtyInv_step st e tok s htok htt hinv
      have hrest' : fillsOn tok rest = true := by
        simp only [fillsOn, Bool.and_eq_true, Bool.or_eq_true, decide_eq_true_eq]
        exact hrest
      have := ih (on_fill_event st e) (s + signedQty e) hrest' hstep
      simpa [applyFills, signedSum, add_assoc] using this

/-- C2: starting from an empty positions map, after any BUY/SELL fill
sequence on one instrument the stored quantity equals the signed sum of
the fill quantities, the entry is absent exactly when that sum is zero,
and no zero-quantity entry ever remains. -/
theorem c2_position_signed_sum (tok : String) (initial_cash : ℚ)
    (fills : List FillEvent) (hf : fillsOn tok fills = true) :
    (signedSum fills = 0 →
      (applyFills (initialState initial_cash) fills).positions tok = none) ∧
    (signedSum fills ≠ 0 →
      ((applyFills (initialState initial_cash) fills).positions tok).map
          Position.quantity = some (signedSum fills)) ∧
    noZeroEntryAt (applyFills (initialState initial_cash) fills) tok = true := by
  have hbase : posQtyInv (initialState initial_cash) tok 0 := by
    constructor
    · intro _; rfl
    · intro h; exact absurd rfl h
  have hinv := posQtyInv_applyFills tok fills (initialState initial_cash) 0 hf hbase
  rw [zero_add] at hinv
  obtain ⟨h0, hne⟩ := hinv
  refine ⟨h0, hne, ?_⟩
  by_cases hz : signedSum fills = 0
  · simp [noZeroEntryAt, h0 hz]
  · have := hne hz
    rcases hm : (applyFills (initialState initial_cash) fills).positions tok with _ | p
    · simp [hm] at this
    · rw [hm] at this
      simp only [Option.map_some'] at this
      have hpq : p.quantity = signedSum fills := by
        exact Option.some.inj this
      simp [noZeroEntryAt, hm, hpq, hz]

/-- Witness for C2: BUY 3 then SELL 1 on "X" leaves quantity 2. -/
theorem c2_position_signed_sum_witness :
    fillsOn "X"
      [{ order_id := "a", exchange_order_id := "xa", instrument_token := "X",
         quantity := 3, price := 10, transaction_type := "BUY", brokerage := 20,
         fill_timestamp := 0 },
       { order_id := "b", exchange_order_id := "xb", instrument_token := "X",
         quantity := 1, price := 11, transaction_type := "SELL", brokerage := 20,
         fill_timestamp := 1 }] = true ∧
    signedSum
      [{ order_id := "a", exchange_order_id := "xa", instrument_token := "X",
         quantity := 3, price := 10, transaction_type := "BUY", brokerage := 20,
         fill_timestamp := 0 },
       { order_id := "b", exchange_order_id := "xb", instrument_token := "X",
         quantity := 1, price := 11, transaction_type := "SELL", brokerage := 20,
         fill_timestamp := 1 }] ≠ 0 ∧
    ((applyFills (initialState 1000)
      [{ order_id := "a", exchange_order_id := "xa", instrument_token := "X",
         quantity := 3, price := 10, transaction_type := "BUY", brokerage := 20,
         fill_timestamp := 0 },
       { order_id := "b", exchange_order_id := "xb", instrument_token := "X",
         quantity := 1, price := 11, transaction_type := "SELL", brokerage := 20,
         fill_timestamp := 1 }]).positions "X").map Position.quantity
      = some (signedSum
      [{ order_id := "a", exchange_order_id := "xa", instrument_token := "X",
         quantity := 3, price := 10, transaction_type := "BUY", brokerage := 20,
         fill_timestamp := 0 },
       { order_id := "b", exchange_order_id := "xb", instrument_token := "X",
         quantity := 1, price := 11, transaction_type := "SELL", brokerage := 20,
         fill_timestamp := 1 }]) := by
  refine ⟨by decide, by decide, ?_⟩
  exact (c2_position_signed_sum "X" 1000 _ (by decide)).2.1 (by decide)

/-- A minimal BUY fill, as the two-fill scenario of the spec uses it. -/
def buyFill (tok : String) (q : Int) (p : ℚ) : FillEvent :=
  { order_id := "", exchange_order_id := "", instrument_token := tok,
    quantity := q, price := p, transaction_type := "BUY", brokerage := 0,
    fill_timestamp := 0 }

/-- A BUY fill onto an existing entry updates the average price to the
volume-weighted average, provided the resulting quantity is nonzero
(otherwise the entry is deleted). -/
theorem avg_after_buy (st : PortfolioState) (e : FillEvent) (pos : Position)
    (ht : e.transaction_type = "BUY")
    (hm : st.positions e.instrument_token = some pos)
    (hnz : pos.quantity + e.quantity ≠ 0) :
    ((on_fill_event st e).positions e.instrument_token).map Position.avg_price
      = some (((pos.quantity : ℚ) * pos.avg_price + (e.quantity : ℚ) * e.price)
                / ((pos.quantity : ℚ) + (e.quantity : ℚ))) := by
  simp only [on_fill_event, ht, hm, reduceIte]
  simp only [apply_ite (fun f : String → Option Position => f e.instrument_token)]
  rw [if_neg hnz]
  simp [if_neg hnz]

/-- A BUY fill onto an absent entry creates one holding the fill quantity
at the fill price. -/
theorem entry_after_buy_from_none (st : PortfolioState) (e : FillEvent)
    (ht : e.transaction_type = "BUY")
    (hm : st.positions e.instrument_token = none)
    (hnz : e.quantity ≠ 0) :
    ∃ pos1, (on_fill_event st e).positions e.instrument_token = some pos1
      ∧ pos1.quantity = e.quantity ∧ pos1.avg_price = e.price := by
  have hq : ((e.quantity : Int) : ℚ) ≠ 0 := by exact_mod_cast hnz
  refine ⟨{ quantity := e.quantity, avg_price := e.price,
            last_known_price := e.price }, ?_, rfl, rfl⟩
  simp only [on_fill_event, ht, hm, reduceIte]
  simp only [apply_ite (fun f : String → Option Position => f e.instrument_token)]
  rw [if_neg (by simpa using hnz)]
  simp [hnz, hq]

/-- C3: (i) from an existing position, a BUY fill sets the average price
to `(oldQty*oldAvg + qty*price)/(oldQty+qty)`; (ii) two BUY fills
`(q1,p1)`, `(q2,p2)` from no position give average
`(q1*p1 + q2*p2)/(q1+q2)`, exactly. -/
theorem c3_vwap_buy
    (st : PortfolioState) (e : FillEvent) (pos : Position)
    (tok : String) (initial_cash : ℚ) (q1 q2 : Int) (p1 p2 : ℚ)
    (ht : e.transaction_type = "BUY")
    (hm : st.positions e.instrument_token = some pos)
    (hnz : pos.quantity + e.quantity ≠ 0)
    (hq1 : 0 < q1) (hq2 : 0 < q2) :
    ((on_fill_event st e).positions e.instrument_token).map Position.avg_price
        = some (((pos.quantity : ℚ) * pos.avg_price + (e.quantity : ℚ) * e.price)
            / ((pos.quantity : ℚ) + (e.quantity : ℚ)))
    ∧ ((applyFills (initialState initial_cash)
          [buyFill tok q1 p1, buyFill tok q2 p2]).positions tok).map
        Position.avg_price
        = some (((q1 : ℚ) * p1 + (q2 : ℚ) * p2) / ((q1 : ℚ) + (q2 : ℚ))) := by
  refine ⟨avg_after_buy st e pos ht hm hnz, ?_⟩
  have h1 : (initialState initial_cash).positions (buyFill tok q1 p1).instrument_token
      = none := rfl
  obtain ⟨pos1, hpos1, hpq, hpa⟩ :=
    entry_after_buy_from_none (initialState initial_cash) (buyFill tok q1 p1)
      rfl h1 (by show q1 ≠ 0; omega)
  have hq1' : pos1.quantity = q1 := by simpa [buyFill] using hpq
  have hp1' : pos1.avg_price = p1 := by simpa [buyFill] using hpa
  have hm2 : (on_fill_event (initialState initial_cash)
      (buyFill tok q1 p1)).positions (buyFill tok q2 p2).instrument_token
      = some pos1 := hpos1
  have hnz2 : pos1.quantity + (buyFill tok q2 p2).quantity ≠ 0 := by
    rw [hq1']
    show q1 + q2 ≠ 0
    omega
  have hres := avg_after_buy _ (buyFill tok q2 p2) pos1 rfl hm2 hnz2
  have htok2 : (buyFill tok q2 p2).instrument_token = tok := rfl
  rw [htok2] at hres
  simp only [applyFills, List.foldl]
  rw [hres, hq1', hp1']
  rfl

/-- Witness for C3: BUY 2@10 then BUY 2@20 gives average (2*10+2*20)/4. -/
theorem c3_vwap_buy_witness :
    ((buyFill "X" 2 20).transaction_type = "BUY"
      ∧ (on_fill_event (initialState 1000) (buyFill "X" 2 10)).positions "X"
          = some { quantity := 2, avg_price := 10, last_known_price := 10 }
      ∧ ((2 : Int) + 2 ≠ 0) ∧ ((0 : Int) < 2))
    ∧ ((on_fill_event (on_fill_event (initialState 1000) (buyFill "X" 2 10))
          (buyFill "X" 2 20)).positions "X").map Position.avg_price
        = some ((((2 : Int) : ℚ) * 10 + ((2 : Int) : ℚ) * 20)
            / (((2 : Int) : ℚ) + ((2 : Int) : ℚ)))
    ∧ ((applyFills (initialState 500)
          [buyFill "Y" 2 10, buyFill "Y" 2 20]).positions "Y").map
        Position.avg_price
        = some ((((2 : Int) : ℚ) * 10 + ((2 : Int) : ℚ) * 20)
            / (((2 : Int) : ℚ) + ((2 : Int) : ℚ))) := by
  have hm : (on_fill_event (initialState 1000) (buyFill "X" 2 10)).positions "X"
      = some { quantity := 2, avg_price := 10, last_known_price := 10 } := by
    simp only [on_fill_event, buyFill, initialState]
    norm_num
  refine ⟨⟨rfl, hm, by decide, by decide⟩, ?_, ?_⟩
  · exact (c3_vwap_buy (on_fill_event (initialState 1000) (buyFill "X" 2 10))
      (buyFill "X" 2 20) { quantity := 2, avg_price := 10, last_known_price := 10 }
      "Y" 500 2 2 10 20 rfl hm (by decide) (by decide) (by decide)).1
  · exact (c3_vwap_buy (on_fill_event (initialState 1000) (buyFill "X" 2 10))
      (buyFill "X" 2 20) { quantity := 2, avg_price := 10, last_known_price := 10 }
      "Y" 500 2 2 10 20 rfl hm (by decide) (by decide) (by decide)).2

/-- C10: a fill whose transaction type is neither BUY nor SELL leaves cash
and the positions map unchanged, yet still appends a trade record and an
equity snapshot.  The positions map must carry no zero-quantity entry at
the fill's instrument (the invariant `on_fill_event` maintains), since a
stale zero entry would be deleted by the end-of-call cleanup. -/
theorem c10_non_buy_sell_frame (st : PortfolioState) (e : FillEvent)
    (hb : e.transaction_type ≠ "BUY") (hs : e.transaction_type ≠ "SELL")
    (hz : noZeroEntryAt st e.instrument_token = true) :
    (on_fill_event st e).current_cash = st.current_cash
    ∧ (on_fill_event st e).positions = st.positions
    ∧ (on_fill_event st e).portfolio_trades.length
        = st.portfolio_trades.length + 1
    ∧ (on_fill_event st e).equity_curve.length = st.equity_curve.length + 1 := by
  refine ⟨by simp [on_fill_event, hb, hs], ?_,
    by simp [on_fill_event], by simp [on_fill_event]⟩
  funext t
  by_cases htk : t = e.instrument_token
  · subst htk
    rcases hm : st.positions e.instrument_token with _ | p
    · simp [on_fill_event, hb, hs, hm]
    · have hpz : p.quantity ≠ 0 := by
        simpa [noZeroEntryAt, hm] using hz
      simp [on_fill_event, hb, hs, hm, hpz]
  · simp only [on_fill_event]
    simp only [apply_ite (fun f : String → Option Position => f t)]
    split_ifs <;> simp [htk]

/-- Witness for C10 at a concrete "HOLD" fill on a fresh ledger. -/
theorem c10_non_buy_sell_frame_witness :
    (({ order_id := "o", exchange_order_id := "x", instrument_token := "X",
        quantity := 1, price := 7, transaction_type := "HOLD", brokerage := 20,
        fill_timestamp := 0 } : FillEvent).transaction_type ≠ "BUY")
    ∧ (({ order_id := "o", exchange_order_id := "x", instrument_token := "X",
          quantity := 1, price := 7, transaction_type := "HOLD", brokerage := 20,
          fill_timestamp := 0 } : FillEvent).transaction_type ≠ "SELL")
    ∧ noZeroEntryAt (initialState 100) "X" = true
    ∧ (on_fill_event (initialState 100)
        { order_id := "o", exchange_order_id := "x", instrument_token := "X",
          quantity := 1, price := 7, transaction_type := "HOLD", brokerage := 20,
          fill_timestamp := 0 }).current_cash = (initialState 100).current_cash
    ∧ (on_fill_event (initialState 100)
        { order_id := "o", exchange_order_id := "x", instrument_token := "X",
          quantity := 1, price := 7, transaction_type := "HOLD", brokerage := 20,
          fill_timestamp := 0 }).positions = (initialState 100).positions
    ∧ (on_fill_event (initialState 100)
        { order_id := "o", exchange_order_id := "x", instrument_token := "X",
          quantity := 1, price := 7, transaction_type := "HOLD", brokerage := 20,
          fill_timestamp := 0 }).portfolio_trades.length
        = (initialState 100).portfolio_trades.length + 1 := by
  refine ⟨by decide, by decide, by decide, ?_, ?_, ?_⟩
  · exact (c10_non_buy_sell_frame (initialState 100) _
      (by decide) (by decide) (by decide)).1
  · exact (c10_non_buy_sell_frame (initialState 100) _
      (by decide) (by decide) (by decide)).2.1
  · exact (c10_non_buy_sell_frame (initialState 100) _
      (by decide) (by decide) (by decide)).2.2.1

/-! ## Risk manager (`src/engine/risk_manager.py`) -/

/-- Python's `str.lower` restricted to ASCII, which is all the code compares. -/
def lowercase (s : String) : String := String.mk (s.data.map Char.toLower)

/-- Python's `str.upper` restricted to ASCII, which is all the code compares. -/
def uppercase (s : String) : String := String.mk (s.data.map Char.toUpper)

/-- Embedding of `RiskManager.validate_order`.  The three awaited broker queries
(`calculate_margin`, `calculate_brokerage`, `get_funds_and_margin`) run
inside one `try`; they enter here as `Except` values, `error` standing for
a raised exception, which the handler turns into `(False, 0.0, 0.0)`. -/
def validate_order (trade_type : String)
    (margin_required brokerage_required available_margin : Except Unit ℚ) :
    Bool × ℚ × ℚ :=
  match margin_required, brokerage_required, available_margin with
  | .ok m, .ok k, .ok f =>
    if lowercase trade_type = "entry" then
      let total_cost := m + k
      if f ≥ total_cost then (true, m, k) else (false, m, k)
    else if lowercase trade_type = "exit" then
      if f ≥ k then (true, m, k) else (false, m, k)
    else (false, 0, 0)
  | _, _, _ => (false, 0, 0)

/-- C4: with all broker queries succeeding, an `entry` order validates
exactly when funds cover margin plus brokerage (boundary inclusive), and
an `exit` order exactly when funds cover brokerage alone. -/
theorem c4_validate_thresholds (m k f : ℚ) :
    ((validate_order "entry" (Except.ok m) (Except.ok k) (Except.ok f)).1 = true
        ↔ f ≥ m + k)
    ∧ ((validate_order "exit" (Except.ok m) (Except.ok k) (Except.ok f)).1 = true
        ↔ f ≥ k) := by
  have he : lowercase "entry" = "entry" := by decide
  have hx : lowercase "exit" = "exit" := by decide
  have hxe : lowercase "exit" ≠ "entry" := by decide
  constructor
  · simp only [validate_order, he, reduceIte, ite_true]
    split_ifs with h <;> simp [h]
  · have hxe2 : ("exit" : String) = "entry" ↔ False :=
      ⟨fun hc => absurd hc (by decide), False.elim⟩
    simp only [validate_order, hx, hxe2, if_false, ite_false, ite_true, reduceIte]
    split_ifs with h <;> simp [h]

/-- C9: if any broker query raises, `validate_order` swallows the
exception and returns `(False, 0.0, 0.0)`. -/
theorem c9_query_failure_returns_invalid (trade_type : String)
    (mq kq fq : Except Unit ℚ)
    (h : mq = Except.error () ∨ kq = Except.error () ∨ fq = Except.error ()) :
    validate_order trade_type mq kq fq = (false, 0, 0) := by
  rcases mq with _ | m <;> rcases kq with _ | k <;> rcases fq with _ | f <;>
    simp_all [validate_order]

/-- Witness for C9: a failing margin query yields `(False, 0.0, 0.0)`. -/
theorem c9_query_failure_returns_invalid_witness :
    ((Except.error () : Except Unit ℚ) = Except.error ()
      ∨ (Except.ok (5 : ℚ) : Except Unit ℚ) = Except.error ()
      ∨ (Except.ok (100 : ℚ) : Except Unit ℚ) = Except.error ())
    ∧ validate_order "entry" (Except.error ()) (Except.ok 5) (Except.ok 100)
        = (false, 0, 0) := by
  refine ⟨Or.inl rfl, ?_⟩
  exact c9_query_failure_returns_invalid "entry" _ _ _ (Or.inl rfl)

/-! ## Simulated broker (`src/engine/broker.py`) -/

/-- Python's `round(x)` (bankers' rounding: ties go to the even integer),
as exact rational rounding. -/
def roundHalfEven (x : ℚ) : ℤ :=
  let f := ⌊x⌋
  let r := x - (f : ℚ)
  if r < 1 / 2 then f
  else if r > 1 / 2 then f + 1
  else if f % 2 = 0 then f else f + 1

/-- Python's `round(x, 2)`. -/
def round2 (x : ℚ) : ℚ := (roundHalfEven (100 * x) : ℚ) / 100

/-- Embedding of `SimulatedBroker.calculate_brokerage`: flat fee of 20.0. -/
def calculate_brokerage : ℚ := 20

/-- The fill price `SimulatedBroker.place_order` computes for a market
order.  The code's base price is the requested price when positive and
otherwise the constant 100 (the `random.uniform(99, 101)` alternative is
dead code: it is guarded by `order_details["price"] > 0`, which equals
`price > 0` and so is false on that path).  Slippage is added for BUY and
subtracted otherwise, then the result is rounded to 2 decimals. -/
def simFillPrice (transaction_type : String) (price slippage_percent : ℚ) : ℚ :=
  let fill_price : ℚ := if price > 0 then price else 100
  let slippage_amount := fill_price * (slippage_percent / 100)
  round2 (if uppercase transaction_type = "BUY" then fill_price + slippage_amount
          else fill_price - slippage_amount)

/-- The observable outcome fields of an order placed with
`SimulatedBroker.place_order`. -/
structure OrderDetails where
  status : String
  filled_quantity : Int
  filled_price : ℚ
deriving DecidableEq

/-- Result of `place_order` together with the broker's funds after it. -/
structure PlaceOrderResult where
  order : OrderDetails
  current_funds : ℚ
deriving DecidableEq

/-- Embedding of `SimulatedBroker.place_order` for one order.  `fill_draw_pass` is the
outcome of `random.random() <= self.fill_chance`.  A market order passing
the draw fills at `simFillPrice`; a BUY fill needs
`current_funds >= trade_value + brokerage` and is otherwise REJECTED with
nothing filled and funds untouched; a SELL fills unconditionally; a LIMIT
order stays PENDING; anything else is REJECTED. -/
def place_order (transaction_type : String) (quantity : Int)
    (order_type : String) (price : ℚ) (slippage_percent : ℚ)
    (fill_draw_pass : Bool) (current_funds : ℚ) : PlaceOrderResult :=
  let pending : OrderDetails :=
    { status := "PENDING", filled_quantity := 0, filled_price := 0 }
  if uppercase order_type = "MARKET" ∧ fill_draw_pass then
    let fill_price := simFillPrice transaction_type price slippage_percent
    let brokerage := calculate_brokerage
    let trade_value := fill_price * (quantity : ℚ)
    if uppercase transaction_type = "BUY" then
      let cost := trade_value + brokerage
      if current_funds ≥ cost then
        { order := { status := "FILLED", filled_quantity := quantity,
                     filled_price := fill_price },
          current_funds := current_funds - cost }
      else
        { order := { pending with status := "REJECTED" },
          current_funds := current_funds }
    else if uppercase transaction_type = "SELL" then
      let revenue := trade_value - brokerage
      { order := { status := "FILLED", filled_quantity := quantity,
                   filled_price := fill_price },
        current_funds := current_funds + revenue }
    else
      { order := pending, current_funds := current_funds }
  else if uppercase order_type = "LIMIT" then
    { order := pending, current_funds := current_funds }
  else
    { order := { pending with status := "REJECTED" },
      current_funds := current_funds }

/-- C5: a market BUY passing the fill draw fills exactly when funds cover
`quantity * fill_price + brokerage`; with insufficient funds the order is
REJECTED, nothing is filled, and the broker's funds are unchanged. -/
theorem c5_buy_insufficient_funds (quantity : Int) (price s funds : ℚ) :
    ((place_order "BUY" quantity "MARKET" price s true funds).order.status
        = "FILLED"
      ↔ funds ≥ simFillPrice "BUY" price s * (quantity : ℚ) + calculate_brokerage)
    ∧ (funds < simFillPrice "BUY" price s * (quantity : ℚ) + calculate_brokerage →
        (place_order "BUY" quantity "MARKET" price s true funds).order.status
            = "REJECTED"
        ∧ (place_order "BUY" quantity "MARKET" price s
            true funds).order.filled_quantity = 0
        ∧ (place_order "BUY" quantity "MARKET" price s
            true funds).current_funds = funds) := by
  have hM : uppercase "MARKET" = "MARKET" := by decide
  have hB : uppercase "BUY" = "BUY" := by decide
  simp only [place_order, hM, hB, reduceIte, ite_true, and_true, true_and]
  constructor
  · split_ifs with h <;> simp_all
  · intro hlt
    rw [if_neg (by exact not_le.mpr hlt)]
    exact ⟨rfl, rfl, rfl⟩

/-- Witness for C5: BUY 10 at 100 with 500 funds is rejected whole. -/
theorem c5_buy_insufficient_funds_witness :
    (500 : ℚ) < simFillPrice "BUY" 100 0 * ((10 : Int) : ℚ) + calculate_brokerage
    ∧ (place_order "BUY" 10 "MARKET" 100 0 true 500).order.status = "REJECTED"
    ∧ (place_order "BUY" 10 "MARKET" 100 0 true 500).order.filled_quantity = 0
    ∧ (place_order "BUY" 10 "MARKET" 100 0 true 500).current_funds = 500 := by
  have hfp : simFillPrice "BUY" 100 0 = 100 := by
    simp only [simFillPrice, round2, roundHalfEven]
    norm_num
  have hlt : (500 : ℚ) < simFillPrice "BUY" 100 0 * ((10 : Int) : ℚ)
      + calculate_brokerage := by
    rw [hfp]; norm_num [calculate_brokerage]
  exact ⟨hlt, (c5_buy_insufficient_funds 10 100 0 500).2 hlt⟩

/-- C8 counterexample: a market BUY at requested price 0 with slippage 0
fills at 100, not at the claimed `0 + 0*(0/100) = 0`: the code substitutes
the constant base price 100 when the requested price is not positive. -/
theorem c8_fill_price_counterexample :
    (place_order "BUY" 1 "MARKET" 0 0 true 10000).order.filled_price = 100
    ∧ round2 ((0 : ℚ) + 0 * ((0 : ℚ) / 100)) = 0
    ∧ (place_order "BUY" 1 "MARKET" 0 0 true 10000).order.filled_price
        ≠ round2 ((0 : ℚ) + 0 * ((0 : ℚ) / 100)) := by
  have hfp : simFillPrice "BUY" 0 0 = 100 := by
    simp only [simFillPrice, round2, roundHalfEven]
    norm_num
  have h0 : round2 ((0 : ℚ) + 0 * ((0 : ℚ) / 100)) = 0 := by
    simp only [round2, roundHalfEven]
    norm_num
  have hM : uppercase "MARKET" = "MARKET" := by decide
  have hB : uppercase "BUY" = "BUY" := by decide
  have hfill : (place_order "BUY" 1 "MARKET" 0 0 true 10000).order.filled_price
      = 100 := by
    simp only [place_order, hM, hB, reduceIte, ite_true, and_true, true_and, hfp]
    rw [if_pos (by norm_num [calculate_brokerage])]
  refine ⟨hfill, h0, ?_⟩
  rw [hfill, h0]
  norm_num

/-- C8 amended: a filled market order's price is the base price — the
requested price when positive, otherwise the constant 100 — plus
`base*(slippage/100)` for BUY and minus it for SELL, rounded to 2
decimals.  (The original claim's "requested price" base is wrong for the
`price = 0` market-order case.) -/
theorem c8_amended_fill_price (quantity : Int) (price s funds : ℚ)
    (hfunds : funds ≥ simFillPrice "BUY" price s * (quantity : ℚ)
        + calculate_brokerage) :
    (place_order "BUY" quantity "MARKET" price s true funds).order.filled_price
        = round2 ((if price > 0 then price else 100)
            + (if price > 0 then price else 100) * (s / 100))
    ∧ (place_order "SELL" quantity "MARKET" price s true funds).order.filled_price
        = round2 ((if price > 0 then price else 100)
            - (if price > 0 then price else 100) * (s / 100)) := by
  have hM : uppercase "MARKET" = "MARKET" := by decide
  have hB : uppercase "BUY" = "BUY" := by decide
  have hS : uppercase "SELL" = "SELL" := by decide
  have hSB : uppercase "SELL" = "BUY" ↔ False := by
    constructor
    · intro hc; exact absurd hc (by decide)
    · exact False.elim
  constructor
  · simp only [place_order, hM, hB, reduceIte, ite_true, and_true, true_and]
    rw [if_pos hfunds]
    simp [simFillPrice, hB]
  · simp only [place_order, hM, hS, hSB, reduceIte, ite_true, ite_false,
      if_false, and_true, true_and]
    simp [simFillPrice, hSB]

/-- Witness for C8 amended: at requested price 0 and slippage 0, both a
BUY and a SELL market order fill at `round2 100 = 100`. -/
theorem c8_amended_fill_price_witness :
    (10000 : ℚ) ≥ simFillPrice "BUY" 0 0 * ((1 : Int) : ℚ) + calculate_brokerage
    ∧ (place_order "BUY" 1 "MARKET" 0 0 true 10000).order.filled_price
        = round2 ((if (0 : ℚ) > 0 then (0 : ℚ) else 100)
            + (if (0 : ℚ) > 0 then (0 : ℚ) else 100) * ((0 : ℚ) / 100))
    ∧ (place_order "SELL" 1 "MARKET" 0 0 true 10000).order.filled_price
        = round2 ((if (0 : ℚ) > 0 then (0 : ℚ) else 100)
            - (if (0 : ℚ) > 0 then (0 : ℚ) else 100) * ((0 : ℚ) / 100)) := by
  have hfp : simFillPrice "BUY" 0 0 = 100 := by
    simp only [simFillPrice, round2, roundHalfEven]
    norm_num
  have hge : (10000 : ℚ) ≥ simFillPrice "BUY" 0 0 * ((1 : Int) : ℚ)
      + calculate_brokerage := by
    rw [hfp]; norm_num [calculate_brokerage]
  exact ⟨hge, (c8_amended_fill_price 1 0 0 10000 hge).1,
    (c8_amended_fill_price 1 0 0 10000 hge).2⟩

/-! ## Signal rate limiter (`src/engine/enhanced_strategy_adapter.py`)

The code keys buckets by the minute string `now.strftime('%Y-%m-%d %H:%M')`;
buckets here are minutes-since-epoch (`ℕ`).  The nested dicts read absent
keys as 0 (the code inserts missing keys with value 0 before reading), so
the state is a total function with default 0.

The module imports only `datetime` from the `datetime` module, yet
`_cleanup_rate_limiter` evaluates `timedelta(hours=1)` in its first
statement, so every call to it raises `NameError` before touching any
state.  `_check_rate_limit` calls it on every accept path, after
incrementing the counter and before `return True`, so the accept path
always raises (the raised exception escapes to the caller's
`try`/`except`); only the reject path ever returns. -/

/-- Bucketed signal counts: minute bucket → instrument token → count. -/
abbrev RateLimiterState := ℕ → String → ℕ

/-- Initial state: `self.signal_rate_limiter` is the empty dict at adapter construction. -/
def emptyRateLimiter : RateLimiterState := fun _ _ => 0

/-- Embedding of `EnhancedStrategyAdapter._cleanup_rate_limiter`: its first
statement, `cutoff_time = current_time - timedelta(hours=1)`, raises
`NameError` because `timedelta` is never imported, so the purge never
runs and no state is touched. -/
def cleanup_rate_limiter (_current_minute : ℕ) (_st : RateLimiterState) :
    Except Unit RateLimiterState :=
  Except.error ()

/-- Embedding of `EnhancedStrategyAdapter._check_rate_limit`: once the
bucket for (current minute, instrument) has reached
`max_signals_per_minute`, return `False` without counting; otherwise the
counter is incremented (an in-place dict mutation that persists) and the
call to `_cleanup_rate_limiter` raises `NameError`, so `return True` is
never reached.  The first component is the call's outcome (`error` = the
propagating exception), the second the state after the call. -/
def check_rate_limit (max_signals_per_minute : ℕ) (current_minute : ℕ)
    (instrument_token : String) (st : RateLimiterState) :
    Except Unit Bool × RateLimiterState :=
  if st current_minute instrument_token ≥ max_signals_per_minute then
    (Except.ok false, st)
  else
    let st1 : RateLimiterState := fun m tok =>
      if m = current_minute ∧ tok = instrument_token
      then st current_minute instrument_token + 1
      else st m tok
    match cleanup_rate_limiter current_minute st1 with
    | Except.ok st2 => (Except.ok true, st2)
    | Except.error e => (Except.error e, st1)

/-- Feed a sequence of (minute, instrument) signals through
`check_rate_limit`, returning each signal's outcome: `ok true` accepted,
`ok false` rejected, `error` the `NameError` escaping the call. -/
def run_rate_limiter (max_signals_per_minute : ℕ) :
    List (ℕ × String) → RateLimiterState → List (Except Unit Bool)
  | [], _ => []
  | (m, tok) :: rest, st =>
    let r := check_rate_limit max_signals_per_minute m tok st
    r.1 :: run_rate_limiter max_signals_per_minute rest r.2

/-- C6: the claimed accept/reject pattern (10 accepts, one reject, an
accept in the next minute bucket) does not occur in the code as written:
with the configured maximum of 10, each of the first 10 signals for "X"
increments the counter and then raises `NameError` out of
`_check_rate_limit` (so none is accepted), the 11th finds the bucket full
and returns `False`, and the next-minute signal raises again.  The only
value `_check_rate_limit` ever returns is `False`. -/
theorem c6_rate_limit_name_error :
    run_rate_limiter 10
      (List.replicate 11 (37, "X") ++ [(38, "X")]) emptyRateLimiter
      = List.replicate 10 (Except.error ())
        ++ [Except.ok false, Except.error ()] := by rfl

/-! ## Strategy manager (`src/engine/strategy_manager.py`) -/

/-- The `StrategyStatus` enum. -/
inductive StrategyStatus where
  | initializing
  | running
  | paused
  | stopped
  | error
  | completed
deriving DecidableEq

/-- The `StrategyInstance` fields `route_market_event` touches, plus
`delivered`, a spy counter of `handle_market_event` invocations (the
claim's observable for "the event was delivered"). -/
structure StrategyInstance where
  status : StrategyStatus
  error_count : ℕ
  max_errors : ℕ
  delivered : ℕ
deriving DecidableEq

/-- Embedding of `StrategyManager._send_event_to_strategy`: the handler is invoked
(counted in `delivered`); if it raises (`raises = true`), the error count
is incremented and, at `max_errors`, the status becomes ERROR. -/
def send_event_to_strategy (raises : Bool) (s : StrategyInstance) :
    StrategyInstance :=
  let s1 := { s with delivered := s.delivered + 1 }
  if raises then
    let s2 := { s1 with error_count := s1.error_count + 1 }
    if s2.error_count ≥ s2.max_errors
    then { s2 with status := StrategyStatus.error }
    else s2
  else s1

/-- Embedding of `StrategyManager.route_market_event` with no target id: broadcast to
every RUNNING instance; non-RUNNING instances are skipped.  `raises`
tells, per strategy id, whether its handler raises on this event. -/
def route_market_event (raises : String → Bool)
    (strategies : List (String × StrategyInstance)) :
    List (String × StrategyInstance) :=
  strategies.map fun p =>
    if p.2.status = StrategyStatus.running
    then (p.1, send_event_to_strategy (raises p.1) p.2)
    else p

/-- Broadcast `n` market events in sequence. -/
def routeN (raises : String → Bool) :
    ℕ → List (String × StrategyInstance) → List (String × StrategyInstance)
  | 0, s => s
  | n + 1, s => routeN raises n (route_market_event raises s)

theorem routeN_succ (raises : String → Bool) (n : ℕ)
    (s : List (String × StrategyInstance)) :
    routeN raises (n + 1) s
      = route_market_event raises (routeN raises n s) := by
  induction n generalizing s with
  | zero => rfl
  | succ n ih => exact ih (route_market_event raises s)

/-- Strategy "A"'s handler raises on every event; others never raise. -/
def raisesOnlyA : String → Bool := fun sid => decide (sid = "A")

/-- A freshly added RUNNING instance with the default `max_errors = 5`. -/
def freshInstance : StrategyInstance :=
  { status := StrategyStatus.running, error_count := 0, max_errors := 5,
    delivered := 0 }

/-- C7: with `max_errors = 5`, after 5 broadcasts whose handler raised for
"A", instance "A" is in ERROR with exactly 5 deliveries, and however many
further broadcasts occur it receives none of them, while RUNNING instance
"B" receives every broadcast. -/
theorem c7_error_quarantine (n : ℕ) :
    routeN raisesOnlyA (5 + n) [("A", freshInstance), ("B", freshInstance)]
      = [("A", { status := StrategyStatus.error, error_count := 5,
                 max_errors := 5, delivered := 5 }),
         ("B", { status := StrategyStatus.running, error_count := 0,
                 max_errors := 5, delivered := 5 + n })] := by
  induction n with
  | zero => decide
  | succ n ih =>
      have h5 : 5 + (n + 1) = (5 + n) + 1 := by omega
      rw [h5, routeN_succ, ih]
      have hB : raisesOnlyA "B" = false := by decide
      simp [route_market_event, send_event_to_strategy, hB]

end Optiqo
